import Mathlib

/-!
# Verification of the order/payment/refund flow of an online-cinema backend

Shallow embedding of the order, cart, payment and purchase logic of the
FastAPI application (files `app/orders/routes.py`, `app/cart/routes.py`,
`app/payments/routes.py`, `app/payments/services.py`, and the SQLAlchemy
models in `app/{cart,orders,payments}/models.py`).

Modelling conventions:
* The relational database is a `DB` structure of lists of rows; `query(...)
  .filter_by(...).first()` becomes `List.find?`.
* Monetary amounts (`DECIMAL(10,2)` columns) are modelled as integers in
  minor units; only their additive structure is used by the code.
* Timestamps are natural numbers (seconds); SQL `DATE(t)` truncates to days.
* A request handler is a function `DB → ... → PyResult resp × DB`.  The
  returned `DB` is the committed state: every error path returns the original
  `DB`, reflecting that an uncommitted SQLAlchemy session is rolled back when
  the request ends (explicit `db.rollback()` on caught `SQLAlchemyError`,
  implicit rollback on session teardown for uncaught exceptions).
* `PyResult.httpError s d` is a raised `HTTPException(status_code = s,
  detail = d)`; `PyResult.crash` is an exception the handler does not catch
  (e.g. `AttributeError` from dereferencing `None`, or a Stripe error, which
  is not an `SQLAlchemyError`) and which surfaces as a framework-level 500.
* The external Stripe gateway is a parameter of type `Option StripeSession`:
  `some s` is a successful gateway call returning session `s`, `none` is a
  gateway failure (raised Stripe exception).
* The commit of `payment_success` enforces the `unique_purchases_constraint`
  unique index on `(user_id, movie_id)` of the `purchases` table: a commit
  that would violate it raises `IntegrityError` (an `SQLAlchemyError`).
* JWT decoding / `get_current_user_id` is elided: handlers take the verified
  `user_id` directly, as the routes do after the dependency resolves.
-/

/-- Result of running a request handler body. -/
inductive PyResult (α : Type) where
  | ok : α → PyResult α
  | httpError : Nat → Option String → PyResult α
  | crash : String → PyResult α
deriving Repr, DecidableEq

namespace Cinema

/-- `app/accounts/models.py`: user group (only the name is consulted). -/
structure UserGroupModel where
  name : String
deriving Repr, DecidableEq

/-- `app/accounts/models.py`: a user row (fields the order flow reads). -/
structure UserModel where
  id : Nat
  email : String
  group : UserGroupModel
deriving Repr, DecidableEq

/-- `app/movies/models.py`: a movie row (fields the order flow reads). -/
structure MovieModel where
  id : Nat
  name : String
  price : Int
deriving Repr, DecidableEq

/-- `app/cart/models.py`: a cart item; `id`/`added_at` are never read by the
order flow and are omitted. -/
structure CartItemModel where
  movie_id : Nat
deriving Repr, DecidableEq

/-- `app/cart/models.py`: a cart with its `cart_items` relationship inlined. -/
structure CartModel where
  id : Nat
  user_id : Nat
  cart_items : List CartItemModel
deriving Repr, DecidableEq

/-- `app/cart/models.py`: a `purchases` row (surrogate `id` omitted; the
unique index is on `(user_id, movie_id)`). -/
structure Purchases where
  user_id : Nat
  movie_id : Nat
deriving Repr, DecidableEq

/-- `app/orders/models.py`: `OrderStatusEnum`. -/
inductive OrderStatusEnum where
  | pending
  | paid
  | canceled
deriving Repr, DecidableEq

/-- `app/orders/models.py`: an order item row. -/
structure OrderItemModel where
  id : Nat
  order_id : Nat
  movie_id : Nat
  price_at_order : Int
deriving Repr, DecidableEq

/-- `app/orders/models.py`: an order row, with the `order_items`
relationship inlined. -/
structure OrderModel where
  id : Nat
  user_id : Nat
  created_at : Nat
  status : OrderStatusEnum
  total_amount : Int
  order_items : List OrderItemModel
deriving Repr, DecidableEq

/-- `app/payments/models.py`: `PaymentStatusEnum`. -/
inductive PaymentStatusEnum where
  | pending
  | successful
  | canceled
  | refunded
deriving Repr, DecidableEq

/-- `app/payments/models.py`: a payment item row. -/
structure PaymentItemModel where
  payment_id : Nat
  order_item_id : Nat
  price_at_payment : Int
deriving Repr, DecidableEq

/-- `app/payments/models.py`: a payment row, with the `payment_items`
relationship inlined. -/
structure PaymentModel where
  id : Nat
  user_id : Nat
  order_id : Nat
  status : PaymentStatusEnum
  amount : Int
  external_payment_id : Option String
  payment_items : List PaymentItemModel
deriving Repr, DecidableEq

/-- A Stripe checkout session as far as the code reads it. -/
structure StripeSession where
  sid : String
  url : String
  amount_total : Int
  currency : String
deriving Repr, DecidableEq

/-- The database: one list of rows per table, plus autoincrement counters and
the clock used for `server_default=func.now()`. -/
structure DB where
  users : List UserModel
  movies : List MovieModel
  carts : List CartModel
  orders : List OrderModel
  payments : List PaymentModel
  purchases : List Purchases
  next_order_id : Nat
  next_order_item_id : Nat
  next_payment_id : Nat
  now : Nat
deriving Repr, DecidableEq

/-- The `user.cart` ORM relationship (one cart per user,
`carts.user_id` unique). -/
def cartOf (db : DB) (user : UserModel) : Option CartModel :=
  db.carts.find? (fun c => c.user_id == user.id)

/-- Key of the `unique_purchases_constraint` index. -/
def purchaseKey (p : Purchases) : Nat × Nat :=
  (p.user_id, p.movie_id)

/-- Python truthiness of an optional integer query parameter
(`if id_user:` — both `None` and `0` are falsy). -/
def truthyNat : Option Nat → Bool
  | none => false
  | some n => n != 0

/-- Python truthiness of an optional string query parameter
(`if order_status:` — both `None` and `""` are falsy). -/
def truthyStr : Option String → Bool
  | none => false
  | some s => s != ""

/-- SQL `func.DATE` on a seconds timestamp. -/
def sqlDate (t : Nat) : Nat :=
  t / 86400

/-- Response row of `GET /orders/` (`OrderListResponseSchema`); the movie
name is `none` when the referenced movie row is missing. -/
structure OrderListResponseSchema where
  date : Nat
  movies : List (Option String)
  total_amount : Int
  status : OrderStatusEnum
deriving Repr, DecidableEq

/-- Rendering of one order row into the `GET /orders/` response
(`app/orders/routes.py`, the list comprehension of `get_orders`). -/
def renderOrder (db : DB) (order : OrderModel) : OrderListResponseSchema :=
  { date := order.created_at
    movies := order.order_items.map
      (fun oi => (db.movies.find? (fun m => m.id == oi.movie_id)).map MovieModel.name)
    total_amount := order.total_amount
    status := order.status }

/-- `get_orders` (`app/orders/routes.py`): list orders, with admin-only
filters `id_user`, `order_date`, `order_status`; non-admins are restricted
to their own orders. Read-only: the handler never writes, so only the
response is returned. -/
def get_orders (db : DB) (id_user : Option Nat) (order_date : Option Nat)
    (order_status : Option OrderStatusEnum) (user_id : Nat) :
    PyResult (List OrderListResponseSchema) :=
  match db.users.find? (fun u => u.id == user_id) with
  | none => .httpError 401 none
  | some user =>
    let orders := db.orders
    let orders :=
      if user.group.name == "admin" then
        let orders :=
          match id_user with
          | some u => if u != 0 then orders.filter (fun o => o.user_id == u) else orders
          | none => orders
        let orders :=
          match order_date with
          | some d => orders.filter (fun o => sqlDate o.created_at == d)
          | none => orders
        match order_status with
        | some s => orders.filter (fun o => o.status == s)
        | none => orders
      else
        orders.filter (fun o => o.user_id == user.id)
    .ok (orders.map (renderOrder db))

/-- Response of `POST /orders/` (`OrderCreateResponseSchema`). -/
structure OrderCreateResponseSchema where
  date : Nat
  movies : List String
  total_amount : Int
  status : OrderStatusEnum
  pay_here : String
deriving Repr, DecidableEq

/-- The duplicate-order rejection test of `create_order`
(`app/orders/routes.py:90-96`): an existing order blocks checkout when
`len(set(order_movies_ids + movies_ids)) == len(movies_ids)` and its status
is `"pending"`. -/
def blocksCheckout (movies_ids : List Nat) (order : OrderModel) : Bool :=
  let order_movies_ids := order.order_items.map OrderItemModel.movie_id
  ((order_movies_ids ++ movies_ids).dedup).length == movies_ids.length
    && order.status == OrderStatusEnum.pending

/-- Order items created by `create_order` (`app/orders/routes.py:108-116`):
one per movie, snapshotting `price_at_order = movie.price`; ids are assigned
sequentially by the database. -/
def mkOrderItems (order_id : Nat) : Nat → List MovieModel → List OrderItemModel
  | _, [] => []
  | next_id, m :: rest =>
    { id := next_id, order_id := order_id, movie_id := m.id,
      price_at_order := m.price } :: mkOrderItems order_id (next_id + 1) rest

/-- `create_stripe_session` (`app/payments/services.py`): creates the
pending `Payment` row, calls the gateway, stores the session id, creates one
`PaymentItem` per order item, commits, and returns the checkout URL.  A
gateway failure (`stripe = none`) raises a Stripe error, which the caller's
`except SQLAlchemyError` does not catch; nothing is committed. -/
def create_stripe_session (order : OrderModel) (user_id : Nat) (db : DB)
    (stripe : Option StripeSession) : PyResult (String × DB) :=
  let payment_id := db.next_payment_id
  match stripe with
  | none => .crash "StripeError"
  | some session =>
    let payment_items := order.order_items.map
      (fun oi => { payment_id := payment_id, order_item_id := oi.id,
                   price_at_payment := oi.price_at_order : PaymentItemModel })
    let payment : PaymentModel :=
      { id := payment_id, user_id := user_id, order_id := order.id,
        status := .pending, amount := order.total_amount,
        external_payment_id := some session.sid,
        payment_items := payment_items }
    .ok (session.url,
      { db with payments := db.payments ++ [payment],
                next_payment_id := payment_id + 1 })

/-- `create_order` (`app/orders/routes.py`): converts the user's cart into a
pending order plus a payment session.  Checks, in source order: user exists
(401), user has a cart (400), every cart movie still exists (400 "Invalid
movies data"), no existing pending order blocks checkout (400), then creates
the order, its items, and the Stripe session, committing all of it; an
uncaught gateway error leaves the transaction uncommitted. -/
def create_order (db : DB) (user_id : Nat) (stripe : Option StripeSession) :
    PyResult OrderCreateResponseSchema × DB :=
  match db.users.find? (fun u => u.id == user_id) with
  | none => (.httpError 401 none, db)
  | some user =>
    match cartOf db user with
    | none => (.httpError 400 none, db)
    | some cart =>
      let movies_ids := cart.cart_items.map CartItemModel.movie_id
      let movies := db.movies.filter (fun m => movies_ids.contains m.id)
      if movies.length != movies_ids.length then
        (.httpError 400 (some "Invalid movies data"), db)
      else
        let user_orders := db.orders.filter (fun o => o.user_id == user.id)
        if user_orders.any (blocksCheckout movies_ids) then
          (.httpError 400 (some "you already have order with the same movies"), db)
        else
          let total_amount := (movies.map MovieModel.price).sum
          let order : OrderModel :=
            { id := db.next_order_id, user_id := user.id,
              created_at := db.now, status := .pending,
              total_amount := total_amount,
              order_items := mkOrderItems db.next_order_id db.next_order_item_id movies }
          let staged :=
            { db with orders := db.orders ++ [order],
                      next_order_id := db.next_order_id + 1,
                      next_order_item_id := db.next_order_item_id + movies.length }
          match create_stripe_session order user_id staged stripe with
          | .crash e => (.crash e, db)
          | .httpError s d => (.httpError s d, db)
          | .ok (session_url, committed) =>
            (.ok { date := order.created_at,
                   movies := movies.map MovieModel.name,
                   total_amount := order.total_amount,
                   status := order.status,
                   pay_here := session_url }, committed)

/-- Response of the cart endpoints (`CartResponseSchema`). -/
structure CartResponseSchema where
  message : String
deriving Repr, DecidableEq

/-- `remove_movie_from_cart` (`app/cart/routes.py`, `DELETE /carts/`):
validates the movie (400), then evaluates `cart.id` to query the cart item
*before* the `if not cart or not cart_item` guard — a user without a cart
row makes `cart.id` raise `AttributeError`, which nothing catches.  With a
cart present, a missing item is a 400 "Invalid data"; otherwise the item is
deleted and committed. -/
def remove_movie_from_cart (db : DB) (movie_id : Nat) (user_id : Nat) :
    PyResult CartResponseSchema × DB :=
  match db.movies.find? (fun m => m.id == movie_id) with
  | none => (.httpError 400 (some "Invalid input data."), db)
  | some movie =>
    match db.carts.find? (fun c => c.user_id == user_id) with
    | none => (.crash "AttributeError", db)
    | some cart =>
      match cart.cart_items.find? (fun ci => ci.movie_id == movie_id) with
      | none => (.httpError 400 (some "Invalid data"), db)
      | some _ =>
        let cart' := { cart with
          cart_items := cart.cart_items.filter (fun ci => !(ci.movie_id == movie_id)) }
        (.ok { message := movie.name ++ " was deteled from cart number "
                 ++ toString cart.id ++ " successfully" },
         { db with carts := db.carts.map (fun c => if c.id == cart.id then cart' else c) })

/-- Response of `GET /payments/success/` (`PaymentSuccessSchema`);
`amount_paid` stays in minor units here. -/
structure PaymentSuccessSchema where
  message : String
  amount_paid : Int
  currency : String
deriving Repr, DecidableEq

/-- `payment_success` (`app/payments/routes.py`): marks the payment
successful and the order paid, inserts one `Purchases` row per order item,
deletes the user's cart, and commits.  `db.delete(user.cart)` with no cart
raises `UnmappedInstanceError` (an `SQLAlchemyError`), and a commit
violating `unique_purchases_constraint` raises `IntegrityError`: both are
caught, rolled back, and surface as a 500.  A missing order or user makes
the subsequent attribute access raise (uncaught). -/
def payment_success (db : DB) (payment_id : Nat) (stripe : Option StripeSession) :
    PyResult PaymentSuccessSchema × DB :=
  match db.payments.find? (fun p => p.id == payment_id) with
  | none => (.httpError 404 none, db)
  | some payment =>
    let payment' := { payment with status := .successful }
    match stripe with
    | none => (.crash "StripeError", db)
    | some session =>
      match db.orders.find? (fun o => o.id == payment.order_id) with
      | none => (.crash "AttributeError", db)
      | some order =>
        let order' := { order with status := .paid }
        match db.users.find? (fun u => u.id == payment.user_id) with
        | none => (.crash "AttributeError", db)
        | some user =>
          let movie_ids := order.order_items.map OrderItemModel.movie_id
          let purchases := movie_ids.map
            (fun mid => { user_id := user.id, movie_id := mid : Purchases })
          match cartOf db user with
          | none => (.httpError 500 none, db)
          | some cart =>
            if ((db.purchases ++ purchases).map purchaseKey).Nodup then
              (.ok { message := "Payment successful",
                     amount_paid := session.amount_total / 100,
                     currency := session.currency },
               { db with
                  payments := db.payments.map
                    (fun p => if p.id == payment.id then payment' else p),
                  orders := db.orders.map
                    (fun o => if o.id == order.id then order' else o),
                  purchases := db.purchases ++ purchases,
                  carts := db.carts.filter (fun c => !(c.id == cart.id)) })
            else
              (.httpError 500 none, db)

/-- Response of `POST /orders/refund/`. -/
structure RefundResponseSchema where
  message : String
deriving Repr, DecidableEq

/-- `refund_order` (`app/orders/routes.py`): looks up the order by id and
its first payment by `order_id`; a missing order (or, for an owned order, a
missing payment) makes the attribute access raise `AttributeError`
(uncaught).  A non-owned order or an already refunded payment is a 400.
Otherwise the order is canceled, the payment refunded, the user's matching
`Purchases` rows deleted, and everything committed together; `commitOk =
false` models an `SQLAlchemyError` at commit, caught and rolled back. -/
def refund_order (db : DB) (order_id : Nat) (user_id : Nat) (commitOk : Bool) :
    PyResult RefundResponseSchema × DB :=
  match db.orders.find? (fun o => o.id == order_id) with
  | none => (.crash "AttributeError", db)
  | some order =>
    if order.user_id != user_id then
      (.httpError 400 none, db)
    else
      match db.payments.find? (fun p => p.order_id == order_id) with
      | none => (.crash "AttributeError", db)
      | some payment =>
        if payment.status == PaymentStatusEnum.refunded then
          (.httpError 400 none, db)
        else
          let order' := { order with status := .canceled }
          let payment' := { payment with status := .refunded }
          let movie_ids := order.order_items.map OrderItemModel.movie_id
          if commitOk then
            (.ok { message := "your order was refunded" },
             { db with
                orders := db.orders.map
                  (fun o => if o.id == order.id then order' else o),
                payments := db.payments.map
                  (fun p => if p.id == payment.id then payment' else p),
                purchases := db.purchases.filter
                  (fun pu => !(movie_ids.contains pu.movie_id && pu.user_id == user_id)) })
          else
            (.httpError 500 none, db)

end Cinema

namespace Cinema

/-! ## General lemmas about the embedded operations -/

/-- Replacing, in a list, every element satisfying `p` by a fixed element `b`
that satisfies `p` does not change which position `find? p` hits: it returns
`b` whenever the original search succeeded. -/
theorem find?_map_if {α : Type} (p : α → Bool) (b : α) (hb : p b = true) :
    ∀ l : List α, (l.find? p).isSome = true →
      (l.map (fun x => if p x then b else x)).find? p = some b := by
  intro l
  induction l with
  | nil => simp
  | cons x xs ih =>
    intro h
    by_cases hx : p x = true
    · simp only [List.map_cons, hx, if_true]
      exact List.find?_cons_of_pos _ hb
    · have hx' : p x = false := by simpa using hx
      simp only [List.map_cons, hx', Bool.false_eq_true, if_false]
      rw [List.find?_cons_of_neg _ hx]
      apply ih
      rwa [List.find?_cons_of_neg _ hx] at h

/-- `len(set(l₁ + l₂)) == len(l₂)` (for duplicate-free `l₂`) says exactly
that `l₁` is contained in `l₂`. -/
theorem dedup_append_length_eq {l₁ l₂ : List Nat} (h₂ : l₂.Nodup) :
    ((l₁ ++ l₂).dedup).length = l₂.length ↔ ∀ x ∈ l₁, x ∈ l₂ := by
  rw [← List.card_toFinset, List.toFinset_append, ← List.toFinset_card_of_nodup h₂]
  constructor
  · intro h x hx
    have hsub : l₂.toFinset ⊆ l₁.toFinset ∪ l₂.toFinset := Finset.subset_union_right
    have heq : l₂.toFinset = l₁.toFinset ∪ l₂.toFinset :=
      Finset.eq_of_subset_of_card_le hsub (le_of_eq h)
    have : l₁.toFinset ⊆ l₂.toFinset := by
      rw [heq]
      exact Finset.subset_union_left
    have := this (List.mem_toFinset.mpr hx)
    exact List.mem_toFinset.mp this
  · intro h
    have : l₁.toFinset ∪ l₂.toFinset = l₂.toFinset := by
      apply Finset.union_eq_right.mpr
      intro x hx
      exact List.mem_toFinset.mpr (h x (List.mem_toFinset.mp hx))
    rw [this]

/-- The duplicate-order test of `create_order` fires on an order exactly
when the order is pending and its movie ids are all among the cart's movie
ids — a subset test, not an equality test. -/
theorem blocksCheckout_iff {movies_ids : List Nat} (hnd : movies_ids.Nodup)
    (o : OrderModel) :
    blocksCheckout movies_ids o = true ↔
      o.status = .pending ∧
        ∀ mid ∈ o.order_items.map OrderItemModel.movie_id, mid ∈ movies_ids := by
  unfold blocksCheckout
  rw [Bool.and_eq_true, beq_iff_eq, beq_iff_eq, dedup_append_length_eq hnd]
  tauto

/-- The order items of a new order snapshot exactly the prices of the movie
rows they were built from. -/
theorem mkOrderItems_map_price (oid : Nat) :
    ∀ (n : Nat) (ms : List MovieModel),
      (mkOrderItems oid n ms).map OrderItemModel.price_at_order =
        ms.map MovieModel.price := by
  intro n ms
  induction ms generalizing n with
  | nil => rfl
  | cons m rest ih => simp [mkOrderItems, ih]

/-- Every order item of a new order comes from one of the movie rows,
carrying its id and current price. -/
theorem mkOrderItems_sound (oid : Nat) :
    ∀ (n : Nat) (ms : List MovieModel),
      ∀ oi ∈ mkOrderItems oid n ms,
        ∃ m ∈ ms, m.id = oi.movie_id ∧ oi.price_at_order = m.price := by
  intro n ms
  induction ms generalizing n with
  | nil => simp [mkOrderItems]
  | cons m rest ih =>
    intro oi hoi
    simp only [mkOrderItems, List.mem_cons] at hoi
    rcases hoi with h | h
    · exact ⟨m, List.mem_cons_self m rest, by simp [h]⟩
    · obtain ⟨m', hm', h1, h2⟩ := ih (n + 1) oi h
      exact ⟨m', List.mem_cons_of_mem m hm', h1, h2⟩

end Cinema

namespace Cinema

/-! ## Claim theorems -/

/-- C8: for every `create_order` call in which the external payment-gateway
session creation fails (`stripe = none`), the request never succeeds and the
database is left exactly as it was — no Order, OrderItem, Payment or
PaymentItem row is persisted. -/
theorem c8_gateway_failure_persists_nothing (db : DB) (user_id : Nat) :
    (create_order db user_id none).2 = db ∧
      ∀ resp, (create_order db user_id none).1 ≠ PyResult.ok resp := by
  unfold create_order
  split
  · exact ⟨rfl, by simp⟩
  · split
    · exact ⟨rfl, by simp⟩
    · dsimp only
      split
      · exact ⟨rfl, by simp⟩
      · split
        · exact ⟨rfl, by simp⟩
        · simp [create_stripe_session]

/-- C9: for a non-admin user, `get_orders` ignores the `id_user`,
`order_date` and `order_status` query parameters entirely and returns
exactly the renderings of the orders whose `user_id` is the requesting
user's id — a non-admin can never observe another user's orders. -/
theorem c9_non_admin_sees_only_own_orders (db : DB) (user : UserModel)
    (user_id : Nat) (id_user : Option Nat) (order_date : Option Nat)
    (order_status : Option OrderStatusEnum)
    (hu : db.users.find? (fun u => u.id == user_id) = some user)
    (hadmin : user.group.name ≠ "admin") :
    get_orders db id_user order_date order_status user_id =
      .ok ((db.orders.filter (fun o => o.user_id == user.id)).map (renderOrder db)) := by
  unfold get_orders
  rw [hu]
  have hfalse : (user.group.name == "admin") = false := by
    simpa using hadmin
  simp [hfalse]

end Cinema

namespace Cinema

/-- C5: for an existing order with an associated payment, a refund request
by a non-owner, or for a payment already refunded, is rejected with a 400
and the database — orders, payments and purchases included — is returned
unchanged, whatever the commit outcome would have been. -/
theorem c5_refund_rejected_no_mutation (db : DB) (order_id user_id : Nat)
    (order : OrderModel) (payment : PaymentModel) (commitOk : Bool)
    (ho : db.orders.find? (fun o => o.id == order_id) = some order)
    (hp : db.payments.find? (fun p => p.order_id == order_id) = some payment)
    (h : order.user_id ≠ user_id ∨ payment.status = PaymentStatusEnum.refunded) :
    refund_order db order_id user_id commitOk = (.httpError 400 none, db) := by
  unfold refund_order
  rw [ho]
  dsimp only
  by_cases hown : order.user_id = user_id
  · have href : payment.status = PaymentStatusEnum.refunded := by tauto
    have : (order.user_id != user_id) = false := by simp [hown]
    rw [this]
    simp only [Bool.false_eq_true, if_false]
    rw [hp]
    dsimp only
    simp [href]
  · have : (order.user_id != user_id) = true := by simp [hown]
    rw [this]
    simp

/-- The committed state of a successful refund, read off the code: order
canceled, payment refunded, and the requester's purchases of the refunded
movies deleted. -/
theorem refund_order_ok_eq (db : DB) (order_id user_id : Nat)
    (order : OrderModel) (payment : PaymentModel)
    (ho : db.orders.find? (fun o => o.id == order_id) = some order)
    (hown : order.user_id = user_id)
    (hp : db.payments.find? (fun p => p.order_id == order_id) = some payment)
    (hnr : payment.status ≠ PaymentStatusEnum.refunded) :
    refund_order db order_id user_id true =
      (.ok { message := "your order was refunded" },
       { db with
          orders := db.orders.map
            (fun o => if o.id == order.id then { order with status := .canceled } else o),
          payments := db.payments.map
            (fun p => if p.id == payment.id then { payment with status := .refunded } else p),
          purchases := db.purchases.filter
            (fun pu => !((order.order_items.map OrderItemModel.movie_id).contains pu.movie_id
              && pu.user_id == user_id)) }) := by
  unfold refund_order
  rw [ho]
  dsimp only
  have h1 : (order.user_id != user_id) = false := by simp [hown]
  rw [h1]
  simp only [Bool.false_eq_true, if_false]
  rw [hp]
  dsimp only
  have h2 : (payment.status == PaymentStatusEnum.refunded) = false := by
    simpa using hnr
  rw [h2]
  simp

/-- A failed commit during refund rolls everything back. -/
theorem refund_order_commit_failure_eq (db : DB) (order_id user_id : Nat)
    (order : OrderModel) (payment : PaymentModel)
    (ho : db.orders.find? (fun o => o.id == order_id) = some order)
    (hown : order.user_id = user_id)
    (hp : db.payments.find? (fun p => p.order_id == order_id) = some payment)
    (hnr : payment.status ≠ PaymentStatusEnum.refunded) :
    refund_order db order_id user_id false = (.httpError 500 none, db) := by
  unfold refund_order
  rw [ho]
  dsimp only
  have h1 : (order.user_id != user_id) = false := by simp [hown]
  rw [h1]
  simp only [Bool.false_eq_true, if_false]
  rw [hp]
  dsimp only
  have h2 : (payment.status == PaymentStatusEnum.refunded) = false := by
    simpa using hnr
  rw [h2]
  simp

end Cinema

namespace Cinema

/-- `List.contains` on `Nat` decides membership (negative form). -/
theorem contains_eq_false_iff (l : List Nat) (x : Nat) :
    l.contains x = false ↔ x ∉ l := by
  simp

/-- Semantic effects of a successful refund: the response is the success
message, the order row now reads canceled, the payment row now reads
refunded, and a purchase row survives exactly when it is an original row
not matching (requesting user, refunded movie). -/
theorem refund_order_effects (db : DB) (order_id user_id : Nat)
    (order : OrderModel) (payment : PaymentModel)
    (ho : db.orders.find? (fun o => o.id == order_id) = some order)
    (hown : order.user_id = user_id)
    (hp : db.payments.find? (fun p => p.order_id == order_id) = some payment)
    (hnr : payment.status ≠ PaymentStatusEnum.refunded) :
    (refund_order db order_id user_id true).1 =
        .ok { message := "your order was refunded" } ∧
      (refund_order db order_id user_id true).2.orders.find? (fun o => o.id == order_id) =
        some { order with status := .canceled } ∧
      (refund_order db order_id user_id true).2.payments.find? (fun p => p.id == payment.id) =
        some { payment with status := .refunded } ∧
      ∀ pu : Purchases, pu ∈ (refund_order db order_id user_id true).2.purchases ↔
        (pu ∈ db.purchases ∧
          ¬(pu.user_id = user_id ∧
            pu.movie_id ∈ order.order_items.map OrderItemModel.movie_id)) := by
  have hoid : order.id = order_id := by
    have := List.find?_some ho
    simpa using this
  rw [refund_order_ok_eq db order_id user_id order payment ho hown hp hnr]
  refine ⟨rfl, ?_, ?_, ?_⟩
  · show (db.orders.map fun o =>
        if o.id == order.id then { order with status := .canceled } else o).find?
          (fun o => o.id == order_id) = some { order with status := .canceled }
    rw [hoid]
    apply find?_map_if
    · simp [hoid]
    · rw [ho]
      rfl
  · show (db.payments.map fun p =>
        if p.id == payment.id then { payment with status := .refunded } else p).find?
          (fun p => p.id == payment.id) = some { payment with status := .refunded }
    apply find?_map_if
    · simp
    · exact List.find?_isSome.mpr
        ⟨payment, List.mem_of_find?_eq_some hp, by simp⟩
  · intro pu
    show pu ∈ db.purchases.filter
        (fun pu => !((order.order_items.map OrderItemModel.movie_id).contains pu.movie_id
          && pu.user_id == user_id)) ↔ _
    rw [List.mem_filter]
    simp only [Bool.not_eq_true', Bool.and_eq_false_iff, beq_eq_false_iff_ne, ne_eq,
      contains_eq_false_iff]
    tauto

/-- C6: a successful refund (commit succeeding) sets the order to canceled
and the payment to refunded, and deletes exactly the requester's purchase
rows whose movie is in the refunded order's movie set — a purchase row of
another user or of another movie is kept; and a commit failure rolls all
three effects back, leaving the database untouched. -/
theorem c6_refund_atomic_exact_revocation (db : DB) (order_id user_id : Nat)
    (order : OrderModel) (payment : PaymentModel)
    (ho : db.orders.find? (fun o => o.id == order_id) = some order)
    (hown : order.user_id = user_id)
    (hp : db.payments.find? (fun p => p.order_id == order_id) = some payment)
    (hnr : payment.status ≠ PaymentStatusEnum.refunded) :
    (refund_order db order_id user_id true).1 =
        .ok { message := "your order was refunded" } ∧
      (refund_order db order_id user_id true).2.orders.find? (fun o => o.id == order_id) =
        some { order with status := .canceled } ∧
      (refund_order db order_id user_id true).2.payments.find? (fun p => p.id == payment.id) =
        some { payment with status := .refunded } ∧
      (∀ pu : Purchases, pu ∈ (refund_order db order_id user_id true).2.purchases ↔
        (pu ∈ db.purchases ∧
          ¬(pu.user_id = user_id ∧
            pu.movie_id ∈ order.order_items.map OrderItemModel.movie_id))) ∧
      refund_order db order_id user_id false = (.httpError 500 none, db) := by
  obtain ⟨h1, h2, h3, h4⟩ := refund_order_effects db order_id user_id order payment ho hown hp hnr
  exact ⟨h1, h2, h3, h4,
    refund_order_commit_failure_eq db order_id user_id order payment ho hown hp hnr⟩

/-- C10: refund does not require a successful payment: for an owned order
whose first payment is merely pending or canceled — never successful — the
refund still succeeds, cancels the order, marks the payment refunded, and
deletes the matching purchase rows. -/
theorem c10_refund_without_successful_payment (db : DB) (order_id user_id : Nat)
    (order : OrderModel) (payment : PaymentModel)
    (ho : db.orders.find? (fun o => o.id == order_id) = some order)
    (hown : order.user_id = user_id)
    (hp : db.payments.find? (fun p => p.order_id == order_id) = some payment)
    (hst : payment.status = PaymentStatusEnum.pending ∨
      payment.status = PaymentStatusEnum.canceled) :
    (refund_order db order_id user_id true).1 =
        .ok { message := "your order was refunded" } ∧
      (refund_order db order_id user_id true).2.orders.find? (fun o => o.id == order_id) =
        some { order with status := .canceled } ∧
      (refund_order db order_id user_id true).2.payments.find? (fun p => p.id == payment.id) =
        some { payment with status := .refunded } ∧
      ∀ pu : Purchases, pu ∈ (refund_order db order_id user_id true).2.purchases ↔
        (pu ∈ db.purchases ∧
          ¬(pu.user_id = user_id ∧
            pu.movie_id ∈ order.order_items.map OrderItemModel.movie_id)) := by
  have hnr : payment.status ≠ PaymentStatusEnum.refunded := by
    rcases hst with h | h <;> simp [h]
  exact refund_order_effects db order_id user_id order payment ho hown hp hnr

end Cinema

namespace Cinema

/-- The cart's movie ids, `movies_ids` in `create_order`. -/
def cartMovieIds (cart : CartModel) : List Nat :=
  cart.cart_items.map CartItemModel.movie_id

/-- The movie rows referenced by the cart, `movies` in `create_order`. -/
def cartMovies (db : DB) (cart : CartModel) : List MovieModel :=
  db.movies.filter (fun m => (cartMovieIds cart).contains m.id)

/-- The order row committed by a successful `create_order` call. -/
def newOrder (db : DB) (user : UserModel) (cart : CartModel) : OrderModel :=
  { id := db.next_order_id, user_id := user.id, created_at := db.now,
    status := .pending,
    total_amount := ((cartMovies db cart).map MovieModel.price).sum,
    order_items := mkOrderItems db.next_order_id db.next_order_item_id (cartMovies db cart) }

/-- The payment row committed by a successful `create_order` call. -/
def newPayment (db : DB) (user_id : Nat) (user : UserModel) (cart : CartModel)
    (s : StripeSession) : PaymentModel :=
  { id := db.next_payment_id, user_id := user_id, order_id := db.next_order_id,
    status := .pending, amount := (newOrder db user cart).total_amount,
    external_payment_id := some s.sid,
    payment_items := (newOrder db user cart).order_items.map
      (fun oi => { payment_id := db.next_payment_id, order_item_id := oi.id,
                   price_at_payment := oi.price_at_order }) }

/-- The committed state of a successful `create_order` call, read off the
code: the validations pass, the order and payment are appended and the
response carries the current prices' total and the checkout URL. -/
theorem create_order_ok_eq (db : DB) (user_id : Nat) (user : UserModel)
    (cart : CartModel) (s : StripeSession)
    (hu : db.users.find? (fun u => u.id == user_id) = some user)
    (hc : cartOf db user = some cart)
    (hlen : (cartMovies db cart).length = (cartMovieIds cart).length)
    (hany : (db.orders.filter (fun o => o.user_id == user.id)).any
        (blocksCheckout (cartMovieIds cart)) = false) :
    create_order db user_id (some s) =
      (.ok { date := db.now,
             movies := (cartMovies db cart).map MovieModel.name,
             total_amount := (newOrder db user cart).total_amount,
             status := .pending,
             pay_here := s.url },
       { db with
          orders := db.orders ++ [newOrder db user cart],
          payments := db.payments ++ [newPayment db user_id user cart s],
          next_order_id := db.next_order_id + 1,
          next_order_item_id := db.next_order_item_id + (cartMovies db cart).length,
          next_payment_id := db.next_payment_id + 1 }) := by
  unfold create_order
  rw [hu]
  dsimp only
  rw [hc]
  dsimp only
  have h1 : ((db.movies.filter (fun m =>
      (cart.cart_items.map CartItemModel.movie_id).contains m.id)).length !=
        (cart.cart_items.map CartItemModel.movie_id).length) = false := by
    simpa [cartMovies, cartMovieIds] using hlen
  rw [h1]
  simp only [Bool.false_eq_true, if_false]
  have h2 : (db.orders.filter (fun o => o.user_id == user.id)).any
      (blocksCheckout (cart.cart_items.map CartItemModel.movie_id)) = false := by
    simpa [cartMovieIds] using hany
  rw [h2]
  simp only [Bool.false_eq_true, if_false]
  simp [create_stripe_session, cartMovies, cartMovieIds, newOrder, newPayment]

/-- The rejection state of `create_order` when no user/cart/movie check
fails but some existing order triggers the duplicate test. -/
theorem create_order_duplicate_eq (db : DB) (user_id : Nat) (user : UserModel)
    (cart : CartModel) (stripe : Option StripeSession)
    (hu : db.users.find? (fun u => u.id == user_id) = some user)
    (hc : cartOf db user = some cart)
    (hlen : (cartMovies db cart).length = (cartMovieIds cart).length)
    (hany : (db.orders.filter (fun o => o.user_id == user.id)).any
        (blocksCheckout (cartMovieIds cart)) = true) :
    create_order db user_id stripe =
      (.httpError 400 (some "you already have order with the same movies"), db) := by
  unfold create_order
  rw [hu]
  dsimp only
  rw [hc]
  dsimp only
  have h1 : ((db.movies.filter (fun m =>
      (cart.cart_items.map CartItemModel.movie_id).contains m.id)).length !=
        (cart.cart_items.map CartItemModel.movie_id).length) = false := by
    simpa [cartMovies, cartMovieIds] using hlen
  rw [h1]
  simp only [Bool.false_eq_true, if_false]
  have h2 : (db.orders.filter (fun o => o.user_id == user.id)).any
      (blocksCheckout (cart.cart_items.map CartItemModel.movie_id)) = true := by
    simpa [cartMovieIds] using hany
  rw [h2]
  simp

end Cinema

namespace Cinema

/-- With an empty candidate list, the duplicate test fires exactly on
pending orders with no items. -/
theorem blocksCheckout_nil_iff (o : OrderModel) :
    blocksCheckout [] o = true ↔
      o.status = OrderStatusEnum.pending ∧ o.order_items = [] := by
  unfold blocksCheckout
  rw [Bool.and_eq_true, beq_iff_eq, beq_iff_eq]
  simp only [List.append_nil, List.length_nil, List.length_eq_zero,
    List.dedup_eq_nil, List.map_eq_nil_iff]
  tauto

/-- The duplicate-order scan fires iff the user owns a pending order whose
movie ids all occur among the given ids. -/
theorem any_blocksCheckout_iff (db : DB) (user : UserModel) (ids : List Nat)
    (hnd : ids.Nodup) :
    (db.orders.filter (fun o => o.user_id == user.id)).any (blocksCheckout ids) = true ↔
      ∃ o ∈ db.orders, o.user_id = user.id ∧ o.status = OrderStatusEnum.pending ∧
        ∀ mid ∈ o.order_items.map OrderItemModel.movie_id, mid ∈ ids := by
  rw [List.any_eq_true]
  constructor
  · rintro ⟨o, hm, hb⟩
    rw [List.mem_filter] at hm
    obtain ⟨h1, h2⟩ := (blocksCheckout_iff hnd o).mp hb
    exact ⟨o, hm.1, by simpa using hm.2, h1, h2⟩
  · rintro ⟨o, ho, h1, h2, h3⟩
    exact ⟨o, List.mem_filter.mpr ⟨ho, by simp [h1]⟩,
      (blocksCheckout_iff hnd o).mpr ⟨h2, h3⟩⟩

/-- C3: the committed order of a successful `create_order` has
`total_amount` equal to the sum of its items' `price_at_order`, equal to
the sum of the referenced movies' *current* prices, and every order item
snapshots the current price of its movie row. -/
theorem c3_total_amount_is_current_price_sum (db : DB) (user_id : Nat)
    (user : UserModel) (cart : CartModel) (s : StripeSession)
    (hu : db.users.find? (fun u => u.id == user_id) = some user)
    (hc : cartOf db user = some cart)
    (hlen : (cartMovies db cart).length = (cartMovieIds cart).length)
    (hany : (db.orders.filter (fun o => o.user_id == user.id)).any
        (blocksCheckout (cartMovieIds cart)) = false) :
    (create_order db user_id (some s)).2.orders = db.orders ++ [newOrder db user cart] ∧
      (newOrder db user cart).total_amount =
        ((newOrder db user cart).order_items.map OrderItemModel.price_at_order).sum ∧
      (newOrder db user cart).total_amount =
        ((cartMovies db cart).map MovieModel.price).sum ∧
      ∀ oi ∈ (newOrder db user cart).order_items,
        ∃ m ∈ db.movies, m.id = oi.movie_id ∧ oi.price_at_order = m.price := by
  refine ⟨?_, ?_, rfl, ?_⟩
  · rw [create_order_ok_eq db user_id user cart s hu hc hlen hany]
  · show ((cartMovies db cart).map MovieModel.price).sum = _
    simp only [newOrder]
    rw [mkOrderItems_map_price]
  · intro oi hoi
    simp only [newOrder] at hoi
    obtain ⟨m, hm, h1, h2⟩ :=
      mkOrderItems_sound db.next_order_id db.next_order_item_id (cartMovies db cart) oi hoi
    exact ⟨m, (List.mem_filter.mp hm).1, h1, h2⟩

end Cinema

namespace Cinema

/-- C1 (amended): with a valid user, cart and movie rows, `create_order`
fails with the duplicate-order 400 exactly when some existing order of the
user is pending and its movie-id set is *contained in* (a subset of, not
necessarily identical to) the cart's movie-id set; when no pending order's
movie set is a subset of the cart's, a new `Order` row is created. -/
theorem c1_duplicate_check_is_subset_test (db : DB) (user_id : Nat)
    (user : UserModel) (cart : CartModel) (s : StripeSession)
    (hu : db.users.find? (fun u => u.id == user_id) = some user)
    (hc : cartOf db user = some cart)
    (hnd : (cartMovieIds cart).Nodup)
    (hlen : (cartMovies db cart).length = (cartMovieIds cart).length) :
    ((create_order db user_id (some s)).1 =
        .httpError 400 (some "you already have order with the same movies") ↔
      ∃ o ∈ db.orders, o.user_id = user.id ∧ o.status = OrderStatusEnum.pending ∧
        ∀ mid ∈ o.order_items.map OrderItemModel.movie_id, mid ∈ cartMovieIds cart) ∧
    ((¬ ∃ o ∈ db.orders, o.user_id = user.id ∧ o.status = OrderStatusEnum.pending ∧
        ∀ mid ∈ o.order_items.map OrderItemModel.movie_id, mid ∈ cartMovieIds cart) →
      (create_order db user_id (some s)).2.orders = db.orders ++ [newOrder db user cart]) := by
  have hchar := any_blocksCheckout_iff db user (cartMovieIds cart) hnd
  cases hany : (db.orders.filter (fun o => o.user_id == user.id)).any
      (blocksCheckout (cartMovieIds cart)) with
  | true =>
    have hex := hchar.mp hany
    rw [create_order_duplicate_eq db user_id user cart (some s) hu hc hlen hany]
    exact ⟨⟨fun _ => hex, fun _ => rfl⟩, fun hne => absurd hex hne⟩
  | false =>
    rw [create_order_ok_eq db user_id user cart s hu hc hlen hany]
    constructor
    · constructor
      · intro h
        exact absurd h (by simp)
      · intro hex
        have : (db.orders.filter (fun o => o.user_id == user.id)).any
            (blocksCheckout (cartMovieIds cart)) = true := hchar.mpr hex
        rw [hany] at this
        exact absurd this (by simp)
    · intro _
      rfl

/-- C2 (amended): `create_order` rejects with a 400 exactly when the user
has *no* cart row; an existing cart with zero items is not rejected — the
call goes through and commits an order with no items and total 0. -/
theorem c2_absent_cart_rejected_empty_cart_not (db : DB) (user_id : Nat)
    (user : UserModel) (s : StripeSession)
    (hu : db.users.find? (fun u => u.id == user_id) = some user) :
    (cartOf db user = none →
      ∀ stripe, create_order db user_id stripe = (.httpError 400 none, db)) ∧
    (∀ cart, cartOf db user = some cart → cart.cart_items = [] →
      (∀ o ∈ db.orders, o.user_id = user.id → o.status = OrderStatusEnum.pending →
        o.order_items ≠ []) →
      (create_order db user_id (some s)).1 =
          .ok { date := db.now, movies := [], total_amount := 0,
                status := .pending, pay_here := s.url } ∧
        (create_order db user_id (some s)).2.orders =
          db.orders ++ [newOrder db user cart] ∧
        (newOrder db user cart).order_items = [] ∧
        (newOrder db user cart).total_amount = 0) := by
  constructor
  · intro hnone stripe
    unfold create_order
    rw [hu]
    dsimp only
    rw [hnone]
  · intro cart hc hnil horders
    have hids : cartMovieIds cart = [] := by simp [cartMovieIds, hnil]
    have hmov : cartMovies db cart = [] := by simp [cartMovies, hids]
    have hlen : (cartMovies db cart).length = (cartMovieIds cart).length := by
      rw [hmov, hids]
      rfl
    have hany : (db.orders.filter (fun o => o.user_id == user.id)).any
        (blocksCheckout (cartMovieIds cart)) = false := by
      apply List.any_eq_false.mpr
      intro o hmem
      rw [List.mem_filter] at hmem
      rw [hids, blocksCheckout_nil_iff]
      rintro ⟨hpend, hitems⟩
      exact horders o hmem.1 (by simpa using hmem.2) hpend hitems
    rw [create_order_ok_eq db user_id user cart s hu hc hlen hany]
    refine ⟨?_, rfl, ?_, ?_⟩
    · simp [hmov, newOrder]
    · simp [newOrder, hmov, mkOrderItems]
    · simp [newOrder, hmov]

end Cinema

namespace Cinema

/-- C4: (1) every run of `payment_success` preserves uniqueness of the
`(user_id, movie_id)` purchase pairs — the commit that would insert a
duplicate violates `unique_purchases_constraint`, is rolled back, and
changes nothing; (2) replaying the success callback after a success already
ran (the user's cart is gone) hits `db.delete(user.cart)` with `None`,
raising a caught `SQLAlchemyError`: the handler rolls back and answers 500
— no duplicate rows, no uncaught crash. -/
theorem c4_purchase_rows_unique (db : DB) (payment_id : Nat) :
    (∀ stripe, (db.purchases.map purchaseKey).Nodup →
      (((payment_success db payment_id stripe).2).purchases.map purchaseKey).Nodup) ∧
    (∀ (s : StripeSession) (payment : PaymentModel) (order : OrderModel)
        (user : UserModel),
      db.payments.find? (fun p => p.id == payment_id) = some payment →
      db.orders.find? (fun o => o.id == payment.order_id) = some order →
      db.users.find? (fun u => u.id == payment.user_id) = some user →
      cartOf db user = none →
      payment_success db payment_id (some s) = (.httpError 500 none, db)) := by
  constructor
  · intro stripe h
    unfold payment_success
    split
    · exact h
    · dsimp only
      split
      · exact h
      · split
        · exact h
        · split
          · exact h
          · split
            · exact h
            · split
              · rename_i hnodup
                exact hnodup
              · exact h
  · intro s payment order user hp ho husr hcart
    unfold payment_success
    rw [hp]
    dsimp only
    rw [ho]
    dsimp only
    rw [husr]
    dsimp only
    rw [hcart]

end Cinema

namespace Cinema

/-! ## Concrete states for counterexamples and witnesses -/

/-- A sample movie row. -/
def inception : MovieModel :=
  { id := 1, name := "Inception", price := 1299 }

/-- A second sample movie row. -/
def matrix : MovieModel :=
  { id := 2, name := "Matrix", price := 999 }

/-- A sample non-admin user. -/
def alice : UserModel :=
  { id := 1, email := "alice@example.com", group := { name := "user" } }

/-- A sample gateway session. -/
def chkSession : StripeSession :=
  { sid := "cs_test_1", url := "http://checkout.example/1",
    amount_total := 2298, currency := "usd" }

/-- State with a movie and an order that has no payment, but no cart:
exercises the missing-entity paths. -/
def missingEntityDB : DB :=
  { users := [alice], movies := [inception], carts := [],
    orders := [{ id := 5, user_id := 1, created_at := 0, status := .paid,
                 total_amount := 1299,
                 order_items := [{ id := 1, order_id := 5, movie_id := 1,
                                   price_at_order := 1299 }] }],
    payments := [], purchases := [],
    next_order_id := 6, next_order_item_id := 2, next_payment_id := 1, now := 0 }

/-- C7: requests referencing a missing entity do *not* fail with a
descriptive 4xx: `remove_movie_from_cart` with no cart row dereferences
`cart.id` before its own `if not cart` guard, and `refund_order` with an
unknown order id, or with an order that has no payment row, dereferences
`None` — all three raise an uncaught `AttributeError` (a 500-level crash),
contradicting the spec's error taxonomy which the guards show was
intended. -/
theorem c7_missing_entity_uncaught_error :
    (remove_movie_from_cart missingEntityDB 1 1).1 = PyResult.crash "AttributeError" ∧
      (refund_order missingEntityDB 99 1 true).1 = PyResult.crash "AttributeError" ∧
      (refund_order missingEntityDB 5 1 true).1 = PyResult.crash "AttributeError" :=
  ⟨rfl, rfl, rfl⟩

/-- The empty-but-present cart of user 1. -/
def emptyCart : CartModel :=
  { id := 1, user_id := 1, cart_items := [] }

/-- State where user 1 has a cart row with zero items. -/
def emptyCartDB : DB :=
  { users := [alice], movies := [], carts := [emptyCart],
    orders := [], payments := [], purchases := [],
    next_order_id := 1, next_order_item_id := 1, next_payment_id := 1, now := 7 }

/-- State where user 1 has no cart row at all. -/
def noCartDB : DB :=
  { users := [alice], movies := [], carts := [],
    orders := [], payments := [], purchases := [],
    next_order_id := 1, next_order_item_id := 1, next_payment_id := 1, now := 7 }

/-- C2 counterexample: with an existing cart that has zero items,
`create_order` does not fail — it returns 201 and commits an `Order` row
(with no items and total 0), refuting "a cart with zero items always fails
with a client error and never creates an Order row". -/
theorem c2_counterexample_empty_cart_creates_order :
    emptyCartDB.carts = [{ id := 1, user_id := 1, cart_items := [] }] ∧
      (create_order emptyCartDB 1 (some chkSession)).1 =
        PyResult.ok { date := 7, movies := [], total_amount := 0,
                      status := .pending, pay_here := "http://checkout.example/1" } ∧
      (create_order emptyCartDB 1 (some chkSession)).2.orders ≠ [] :=
  ⟨rfl, rfl, by decide⟩

/-- The cart of user 1 holding movies 1 and 2. -/
def subsetCart : CartModel :=
  { id := 1, user_id := 1, cart_items := [{ movie_id := 1 }, { movie_id := 2 }] }

/-- State where user 1's cart holds movies {1, 2} while an existing
*pending* order holds only movie {1} — a proper subset of the cart. -/
def subsetOrderDB : DB :=
  { users := [alice], movies := [inception, matrix],
    carts := [subsetCart],
    orders := [{ id := 1, user_id := 1, created_at := 0, status := .pending,
                 total_amount := 1299,
                 order_items := [{ id := 1, order_id := 1, movie_id := 1,
                                   price_at_order := 1299 }] }],
    payments := [], purchases := [],
    next_order_id := 2, next_order_item_id := 2, next_payment_id := 1, now := 9 }

/-- C1 counterexample: no existing order's movie set is identical to the
cart's movie set {1, 2} (the pending order holds only {1}, a proper
subset), so the claim predicts a new order; the code instead rejects with
the duplicate-order 400 and commits nothing. -/
theorem c1_counterexample_proper_subset_rejected :
    subsetOrderDB.carts.map cartMovieIds = [[1, 2]] ∧
      (∀ o ∈ subsetOrderDB.orders,
        ¬ ∀ mid ∈ [1, 2], mid ∈ o.order_items.map OrderItemModel.movie_id) ∧
      create_order subsetOrderDB 1 (some chkSession) =
        (.httpError 400 (some "you already have order with the same movies"),
         subsetOrderDB) :=
  ⟨rfl, by decide, rfl⟩

end Cinema

namespace Cinema

/-! ## Witnesses: the claim theorems instantiated at concrete states -/

/-- An order of user 1 over movie 1, already paid. -/
def refundOrder1 : OrderModel :=
  { id := 1, user_id := 1, created_at := 0, status := .paid, total_amount := 1299,
    order_items := [{ id := 1, order_id := 1, movie_id := 1, price_at_order := 1299 }] }

/-- The successful payment of `refundOrder1`. -/
def refundPayment1 : PaymentModel :=
  { id := 1, user_id := 1, order_id := 1, status := .successful, amount := 1299,
    external_payment_id := some "cs_paid_1", payment_items := [] }

/-- State with a paid order, its payment, and purchase rows of two distinct
users and two distinct movies. -/
def refundDB : DB :=
  { users := [alice], movies := [inception], carts := [],
    orders := [refundOrder1], payments := [refundPayment1],
    purchases := [{ user_id := 1, movie_id := 1 }, { user_id := 2, movie_id := 1 },
                  { user_id := 1, movie_id := 2 }],
    next_order_id := 2, next_order_item_id := 2, next_payment_id := 2, now := 0 }

/-- Witness for C5: user 2 requesting a refund of user 1's order gets a 400
and the state is untouched. -/
theorem c5_refund_rejected_no_mutation_witness :
    refundOrder1.user_id ≠ 2 ∧
      refund_order refundDB 1 2 true = (.httpError 400 none, refundDB) :=
  ⟨by decide,
   c5_refund_rejected_no_mutation refundDB 1 2 refundOrder1 refundPayment1 true rfl rfl
     (Or.inl (by decide))⟩

/-- Witness for C6: the owner's refund on the concrete paid order. -/
theorem c6_refund_atomic_exact_revocation_witness :
    refundPayment1.status ≠ PaymentStatusEnum.refunded ∧
      ((refund_order refundDB 1 1 true).1 =
          .ok { message := "your order was refunded" } ∧
        (refund_order refundDB 1 1 true).2.orders.find? (fun o => o.id == 1) =
          some { refundOrder1 with status := .canceled } ∧
        (refund_order refundDB 1 1 true).2.payments.find? (fun p => p.id == refundPayment1.id) =
          some { refundPayment1 with status := .refunded } ∧
        (∀ pu : Purchases, pu ∈ (refund_order refundDB 1 1 true).2.purchases ↔
          (pu ∈ refundDB.purchases ∧
            ¬(pu.user_id = 1 ∧
              pu.movie_id ∈ refundOrder1.order_items.map OrderItemModel.movie_id))) ∧
        refund_order refundDB 1 1 false = (.httpError 500 none, refundDB)) :=
  ⟨by decide,
   c6_refund_atomic_exact_revocation refundDB 1 1 refundOrder1 refundPayment1 rfl rfl rfl
     (by decide)⟩

/-- The pending (never successful) payment of `refundOrder1`. -/
def pendingPayment1 : PaymentModel :=
  { id := 1, user_id := 1, order_id := 1, status := .pending, amount := 1299,
    external_payment_id := some "cs_pending_1", payment_items := [] }

/-- State whose only payment is still pending. -/
def refundPendingDB : DB :=
  { users := [alice], movies := [inception], carts := [],
    orders := [refundOrder1], payments := [pendingPayment1],
    purchases := [{ user_id := 1, movie_id := 1 }],
    next_order_id := 2, next_order_item_id := 2, next_payment_id := 2, now := 0 }

/-- Witness for C10: refunding an order whose payment is merely pending. -/
theorem c10_refund_without_successful_payment_witness :
    pendingPayment1.status = PaymentStatusEnum.pending ∧
      ((refund_order refundPendingDB 1 1 true).1 =
          .ok { message := "your order was refunded" } ∧
        (refund_order refundPendingDB 1 1 true).2.orders.find? (fun o => o.id == 1) =
          some { refundOrder1 with status := .canceled } ∧
        (refund_order refundPendingDB 1 1 true).2.payments.find?
            (fun p => p.id == pendingPayment1.id) =
          some { pendingPayment1 with status := .refunded } ∧
        ∀ pu : Purchases, pu ∈ (refund_order refundPendingDB 1 1 true).2.purchases ↔
          (pu ∈ refundPendingDB.purchases ∧
            ¬(pu.user_id = 1 ∧
              pu.movie_id ∈ refundOrder1.order_items.map OrderItemModel.movie_id))) :=
  ⟨rfl,
   c10_refund_without_successful_payment refundPendingDB 1 1 refundOrder1 pendingPayment1
     rfl rfl rfl (Or.inl rfl)⟩

/-- Witness for C9: a non-admin's listing with every filter set is still the
rendering of their own orders only. -/
theorem c9_non_admin_sees_only_own_orders_witness :
    alice.group.name ≠ "admin" ∧
      get_orders subsetOrderDB (some 42) (some 3) (some OrderStatusEnum.paid) 1 =
        .ok ((subsetOrderDB.orders.filter (fun o => o.user_id == alice.id)).map
          (renderOrder subsetOrderDB)) :=
  ⟨by decide,
   c9_non_admin_sees_only_own_orders subsetOrderDB alice 1 (some 42) (some 3)
     (some OrderStatusEnum.paid) rfl (by decide)⟩

/-- Witness for C1 (amended): on the proper-subset state the duplicate 400
is equivalent to the existence of a pending subset order (which holds
there). -/
theorem c1_duplicate_check_is_subset_test_witness :
    (cartMovieIds subsetCart).Nodup ∧
      (((create_order subsetOrderDB 1 (some chkSession)).1 =
          .httpError 400 (some "you already have order with the same movies") ↔
        ∃ o ∈ subsetOrderDB.orders, o.user_id = alice.id ∧
          o.status = OrderStatusEnum.pending ∧
          ∀ mid ∈ o.order_items.map OrderItemModel.movie_id,
            mid ∈ cartMovieIds subsetCart) ∧
      ((¬ ∃ o ∈ subsetOrderDB.orders, o.user_id = alice.id ∧
          o.status = OrderStatusEnum.pending ∧
          ∀ mid ∈ o.order_items.map OrderItemModel.movie_id,
            mid ∈ cartMovieIds subsetCart) →
        (create_order subsetOrderDB 1 (some chkSession)).2.orders =
          subsetOrderDB.orders ++ [newOrder subsetOrderDB alice subsetCart])) :=
  ⟨by decide,
   c1_duplicate_check_is_subset_test subsetOrderDB 1 alice subsetCart chkSession rfl rfl
     (by decide) rfl⟩

/-- Witness for C2 (amended): on the empty-cart state the call succeeds and
commits an order with no items and total 0. -/
theorem c2_absent_cart_rejected_empty_cart_not_witness :
    emptyCart.cart_items = [] ∧
      ((create_order emptyCartDB 1 (some chkSession)).1 =
          .ok { date := emptyCartDB.now, movies := [], total_amount := 0,
                status := .pending, pay_here := chkSession.url } ∧
        (create_order emptyCartDB 1 (some chkSession)).2.orders =
          emptyCartDB.orders ++ [newOrder emptyCartDB alice emptyCart] ∧
        (newOrder emptyCartDB alice emptyCart).order_items = [] ∧
        (newOrder emptyCartDB alice emptyCart).total_amount = 0) :=
  ⟨rfl,
   (c2_absent_cart_rejected_empty_cart_not emptyCartDB 1 alice chkSession rfl).2
     emptyCart rfl rfl (by decide)⟩

/-- State where user 1's cart {1, 2} faces no blocking order. -/
def checkoutDB : DB :=
  { users := [alice], movies := [inception, matrix], carts := [subsetCart],
    orders := [], payments := [], purchases := [],
    next_order_id := 1, next_order_item_id := 1, next_payment_id := 1, now := 11 }

/-- Witness for C3: the concrete checkout of movies 1 and 2. -/
theorem c3_total_amount_is_current_price_sum_witness :
    (cartMovies checkoutDB subsetCart).length = (cartMovieIds subsetCart).length ∧
      ((create_order checkoutDB 1 (some chkSession)).2.orders =
          checkoutDB.orders ++ [newOrder checkoutDB alice subsetCart] ∧
        (newOrder checkoutDB alice subsetCart).total_amount =
          ((newOrder checkoutDB alice subsetCart).order_items.map
            OrderItemModel.price_at_order).sum ∧
        (newOrder checkoutDB alice subsetCart).total_amount =
          ((cartMovies checkoutDB subsetCart).map MovieModel.price).sum ∧
        ∀ oi ∈ (newOrder checkoutDB alice subsetCart).order_items,
          ∃ m ∈ checkoutDB.movies, m.id = oi.movie_id ∧ oi.price_at_order = m.price) :=
  ⟨rfl,
   c3_total_amount_is_current_price_sum checkoutDB 1 alice subsetCart chkSession
     rfl rfl rfl rfl⟩

/-- The cart user 1 paid for. -/
def paidCart : CartModel :=
  { id := 1, user_id := 1, cart_items := [{ movie_id := 1 }] }

/-- State just before the first success callback runs. -/
def successDB : DB :=
  { users := [alice], movies := [inception], carts := [paidCart],
    orders := [{ id := 1, user_id := 1, created_at := 0, status := .pending,
                 total_amount := 1299,
                 order_items := [{ id := 1, order_id := 1, movie_id := 1,
                                   price_at_order := 1299 }] }],
    payments := [{ id := 1, user_id := 1, order_id := 1, status := .pending,
                   amount := 1299, external_payment_id := some "cs_s",
                   payment_items := [] }],
    purchases := [],
    next_order_id := 2, next_order_item_id := 2, next_payment_id := 2, now := 0 }

/-- State after the first success callback: payment successful, order paid,
one purchase row, cart gone. -/
def replayDB : DB :=
  { users := [alice], movies := [inception], carts := [],
    orders := [{ id := 1, user_id := 1, created_at := 0, status := .paid,
                 total_amount := 1299,
                 order_items := [{ id := 1, order_id := 1, movie_id := 1,
                                   price_at_order := 1299 }] }],
    payments := [{ id := 1, user_id := 1, order_id := 1, status := .successful,
                   amount := 1299, external_payment_id := some "cs_s",
                   payment_items := [] }],
    purchases := [{ user_id := 1, movie_id := 1 }],
    next_order_id := 2, next_order_item_id := 2, next_payment_id := 2, now := 0 }

/-- Witness for C4: `replayDB` really is the state a first successful
callback commits, replaying the callback there answers 500 and leaves the
state untouched, and the purchase pairs stay duplicate-free. -/
theorem c4_purchase_rows_unique_witness :
    (payment_success successDB 1 (some chkSession)).2 = replayDB ∧
      payment_success replayDB 1 (some chkSession) = (.httpError 500 none, replayDB) ∧
      ((payment_success replayDB 1 (some chkSession)).2.purchases.map purchaseKey).Nodup :=
  ⟨by decide,
   (c4_purchase_rows_unique replayDB 1).2 chkSession
     { id := 1, user_id := 1, order_id := 1, status := .successful, amount := 1299,
       external_payment_id := some "cs_s", payment_items := [] }
     { id := 1, user_id := 1, created_at := 0, status := .paid, total_amount := 1299,
       order_items := [{ id := 1, order_id := 1, movie_id := 1, price_at_order := 1299 }] }
     alice rfl rfl rfl rfl,
   (c4_purchase_rows_unique replayDB 1).1 (some chkSession) (by decide)⟩

end Cinema
